import Mathlib

/-!
Shallow embedding of the Autonomo validation pipeline and feature registry.

Sources embedded here:
* `src/core/safety-manager.js` — `SafetyManager` (plan validation, static
  analysis, dynamic sandbox testing, quarantine).
* `src/unnamed/part_001` — `FeatureManager` (load, execute, integrate,
  wrap, self-test of dynamic features).
* `src/unnamed/part_007` — `Autonomo.evolve` (the validation pipeline
  coordinator).

JavaScript strings are modelled as Lean `String`/`List Char`; machine
dates are `Nat` ticks or opaque strings; the VM2 sandbox run and the
external AI agents are oracles passed in as parameters.
-/

/-! ### String helpers -/

/-- `s.toLowerCase()` on a JS string. -/
def lowerStr (s : String) : String := String.mk (s.toList.map Char.toLower)

/-- `s.startsWith(pre)` on a JS string. -/
def strStartsWith (s pre : String) : Bool := pre.toList.isPrefixOf s.toList

/-- Substring test on character lists (`String.prototype.includes`). -/
def listContainsSub (needle : List Char) : List Char → Bool
  | [] => needle.isEmpty
  | c :: rest => needle.isPrefixOf (c :: rest) || listContainsSub needle rest

/-- `hay.includes(needle)` for JS strings. -/
def containsStr (needle hay : String) : Bool :=
  listContainsSub needle.toList hay.toList

/-! ### Regex-token matcher

The banned patterns and the complexity counters in
`SafetyManager.loadBannedPatterns` / `analyzeComplexity` are JS regexes of
a restricted shape: literals, a quote character class, `\s*`, `\s+`,
`\w+`, an optional trailing negative lookahead, and top-level alternation.
They are embedded as token lists.  All quantifiers in those patterns are
followed by a literal that cannot overlap the quantified class, so greedy
matching without backtracking coincides with JS regex semantics. -/

/-- JS `\s` character class (the members occurring in source files). -/
def isWsChar (c : Char) : Bool :=
  c == ' ' || c == '\t' || c == '\n' || c == '\r' ||
  c == Char.ofNat 11 || c == Char.ofNat 12

/-- JS `\w` character class. -/
def isWordChar (c : Char) : Bool := c.isAlphanum || c == '_'

/-- Length of the maximal prefix satisfying `p`. -/
def countWhile (p : Char → Bool) : List Char → Nat
  | [] => 0
  | c :: rest => if p c then countWhile p rest + 1 else 0

/-- Case-insensitive (`ci = true`) or exact prefix test. -/
def litAt (ci : Bool) : List Char → List Char → Bool
  | [], _ => true
  | _ :: _, [] => false
  | p :: ps, h :: hs =>
    (if ci then p.toLower == h.toLower else p == h) && litAt ci ps hs

/-- One token of a restricted JS regex. -/
inductive RTok where
  | lit (s : String)
  | anyOf (cs : List Char)
  | wsStar
  | wsPlus
  | wordPlus
deriving Repr, DecidableEq

/-- Match one token at the head of `hay`; returns consumed length. -/
def matchTok (ci : Bool) : RTok → List Char → Option Nat
  | .lit s, hay => if litAt ci s.toList hay then some s.toList.length else none
  | .anyOf cs, hay =>
    match hay with
    | [] => none
    | c :: _ => if cs.contains c then some 1 else none
  | .wsStar, hay => some (countWhile isWsChar hay)
  | .wsPlus, hay =>
    let n := countWhile isWsChar hay
    if n = 0 then none else some n
  | .wordPlus, hay =>
    let n := countWhile isWordChar hay
    if n = 0 then none else some n

/-- Match a token sequence at the head of `hay`; returns consumed length. -/
def matchToks (ci : Bool) : List RTok → List Char → Option Nat
  | [], _ => some 0
  | t :: ts, hay =>
    (matchTok ci t hay).bind fun n =>
      (matchToks ci ts (hay.drop n)).map fun m => n + m

/-- A banned pattern: token body, optional trailing negative lookahead
(case-insensitive literal), and its `pattern.toString()` name. -/
structure BannedPattern where
  toks : List RTok
  neg : Option String
  name : String
deriving Repr, DecidableEq

/-- Try a banned pattern anchored at the head of `hay` (all banned
patterns carry the `i` flag). -/
def tryPatternAt (p : BannedPattern) (hay : List Char) : Option Nat :=
  (matchToks true p.toks hay).bind fun n =>
    match p.neg with
    | none => some n
    | some s => if litAt true s.toList (hay.drop n) then none else some n

/-- First (leftmost) match of a banned pattern: `code.match(pattern)[0]`. -/
def firstMatchList (p : BannedPattern) : List Char → Option (List Char)
  | [] => (tryPatternAt p []).map fun _ => ([] : List Char)
  | c :: rest =>
    match tryPatternAt p (c :: rest) with
    | some n => some ((c :: rest).take n)
    | none => firstMatchList p rest

/-- The quote character class `['"`]`. -/
def quoteChars : List Char := [Char.ofNat 39, Char.ofNat 34, Char.ofNat 96]

/-- Helper for the `require('mod')` banned patterns. -/
def requirePattern (m : String) (neg : Option String) (nm : String) : BannedPattern :=
  { toks := [.lit "require(", .anyOf quoteChars, .lit m, .anyOf quoteChars, .lit ")"],
    neg := neg, name := nm }

/-- Helper for purely literal banned patterns. -/
def litPattern (s : String) (nm : String) : BannedPattern :=
  { toks := [.lit s], neg := none, name := nm }

/-- `SafetyManager.loadBannedPatterns`, in source order. -/
def bannedPatterns : List BannedPattern :=
  [ requirePattern "child_process" none "/require\\([\x27\x22\x60]child_process[\x27\x22\x60]\\)/gi",
    requirePattern "fs" (some ".promises") "/require\\([\x27\x22\x60]fs[\x27\x22\x60]\\)(?!\\.promises)/gi",
    requirePattern "net" none "/require\\([\x27\x22\x60]net[\x27\x22\x60]\\)/gi",
    requirePattern "http" none "/require\\([\x27\x22\x60]http[\x27\x22\x60]\\)/gi",
    requirePattern "https" none "/require\\([\x27\x22\x60]https[\x27\x22\x60]\\)/gi",
    requirePattern "cluster" none "/require\\([\x27\x22\x60]cluster[\x27\x22\x60]\\)/gi",
    requirePattern "worker_threads" none "/require\\([\x27\x22\x60]worker_threads[\x27\x22\x60]\\)/gi",
    litPattern "process.exit" "/process\\.exit/gi",
    litPattern "process.kill" "/process\\.kill/gi",
    litPattern "process.abort" "/process\\.abort/gi",
    litPattern ".writeFile" "/\\.writeFile/gi",
    litPattern ".writeFileSync" "/\\.writeFileSync/gi",
    litPattern ".unlink" "/\\.unlink/gi",
    litPattern ".unlinkSync" "/\\.unlinkSync/gi",
    litPattern ".rmdir" "/\\.rmdir/gi",
    litPattern ".rmdirSync" "/\\.rmdirSync/gi",
    litPattern "fetch(" "/fetch\\(/gi",
    litPattern "axios." "/axios\\./gi",
    litPattern "XMLHttpRequest" "/XMLHttpRequest/gi",
    litPattern "eval(" "/eval\\(/gi",
    litPattern "Function(" "/Function\\(/gi",
    litPattern "setTimeout(" "/setTimeout\\(/gi",
    litPattern "setInterval(" "/setInterval\\(/gi",
    litPattern "global." "/global\\./gi",
    litPattern "globalThis." "/globalThis\\./gi",
    { toks := [.lit "while", .wsStar, .lit "(", .wsStar, .lit "true", .wsStar, .lit ")"],
      neg := none, name := "/while\\s*\\(\\s*true\\s*\\)/gi" },
    { toks := [.lit "for", .wsStar, .lit "(", .wsStar, .lit ";", .wsStar, .lit ";", .wsStar, .lit ")"],
      neg := none, name := "/for\\s*\\(\\s*;\\s*;\\s*\\)/gi" } ]

/-- The `for … of this.bannedPatterns` loop in `performStaticAnalysis`:
first pattern with a match, together with its matched text. -/
def findBanned : List BannedPattern → List Char → Option (BannedPattern × List Char)
  | [], _ => none
  | p :: ps, code =>
    match firstMatchList p code with
    | some m => some (p, m)
    | none => findBanned ps code

/-! ### Complexity analysis (`SafetyManager.analyzeComplexity`) -/

/-- First alternative of an alternation matching at the head of `hay`. -/
def tryAlts (ci : Bool) : List (List RTok) → List Char → Option Nat
  | [], _ => none
  | a :: rest, hay =>
    match matchToks ci a hay with
    | some n => some n
    | none => tryAlts ci rest hay

/-- Count non-overlapping matches of an alternation (a global `g` regex
used with `String.prototype.match`), fuelled by the input length. -/
def countMatchesFuel (ci : Bool) (alts : List (List RTok)) : Nat → List Char → Nat
  | 0, _ => 0
  | _, [] => 0
  | fuel + 1, c :: rest =>
    match tryAlts ci alts (c :: rest) with
    | some n =>
      if n = 0 then countMatchesFuel ci alts fuel rest
      else 1 + countMatchesFuel ci alts fuel ((c :: rest).drop n)
    | none => countMatchesFuel ci alts fuel rest

/-- `(code.match(regex) || []).length` for the complexity regexes. -/
def countMatches (ci : Bool) (alts : List (List RTok)) (code : String) : Nat :=
  countMatchesFuel ci alts code.length code.toList

/-- `metrics` record produced by `analyzeComplexity`. -/
structure ComplexityMetrics where
  lines : Nat
  functionCount : Nat
  loopCount : Nat
  conditionalCount : Nat
  risk : String
  reason : String
deriving Repr, DecidableEq

/-- `SafetyManager.analyzeComplexity`. -/
def analyzeComplexity (code : String) : ComplexityMetrics :=
  let lines := code.toList.count '\n' + 1
  let functionCount := countMatches false [[.lit "function", .wsPlus, .wordPlus]] code
  let loopCount := countMatches false
    [[.lit "for", .wsStar, .lit "("], [.lit "while", .wsStar, .lit "("],
     [.lit "do", .wsStar, .lit "\x7b"]] code
  let conditionalCount := countMatches false
    [[.lit "if", .wsStar, .lit "("], [.lit "switch", .wsStar, .lit "("]] code
  let rr : String × String :=
    if lines > 500 then ("high", "Too many lines of code")
    else if functionCount > 20 then ("high", "Too many functions")
    else if loopCount > 10 then ("medium", "High number of loops")
    else if conditionalCount > 15 then ("medium", "High number of conditionals")
    else ("low", "Code complexity is acceptable")
  { lines := lines, functionCount := functionCount, loopCount := loopCount,
    conditionalCount := conditionalCount, risk := rr.1, reason := rr.2 }

/-! ### Static analysis (`SafetyManager.performStaticAnalysis`) -/

/-- `SafetyManager.safetyRules` (the fields the embedded code reads). -/
structure SafetyRules where
  maxFileSize : Nat
  maxExecutionTime : Nat
  maxMemoryUsage : Int
deriving Repr, DecidableEq

/-- Default safety rules from `loadSafetyRules` with an empty environment. -/
def defaultSafetyRules : SafetyRules :=
  { maxFileSize := 100 * 1024, maxExecutionTime := 30000,
    maxMemoryUsage := 50 * 1024 * 1024 }

/-- Result object of `performStaticAnalysis` (optional fields model the
fields present on each JS return object). -/
structure StaticReport where
  safe : Bool
  reason : String
  patternName : Option String
  metrics : Option ComplexityMetrics
deriving Repr, DecidableEq

/-- `SafetyManager.performStaticAnalysis`. -/
def performStaticAnalysis (rules : SafetyRules) (code : String) : StaticReport :=
  if code.length > rules.maxFileSize then
    { safe := false,
      reason := "Code size (" ++ toString code.length ++ ") exceeds maximum allowed ("
        ++ toString rules.maxFileSize ++ ")",
      patternName := none, metrics := none }
  else
    match findBanned bannedPatterns code.toList with
    | some (p, m) =>
      { safe := false, reason := "Banned pattern detected: " ++ String.mk m,
        patternName := some p.name, metrics := none }
    | none =>
      let cm := analyzeComplexity code
      if cm.risk = "high" then
        { safe := false, reason := "Code complexity too high: " ++ cm.reason,
          patternName := none, metrics := none }
      else
        { safe := true, reason := "", patternName := none, metrics := some cm }

/-! ### Plan validation (`SafetyManager.validatePlan`)

Optional fields model JS properties that may be absent; Joi's first
validation error is modelled by the first failing check in schema order. -/

/-- One entry of `plan.files` (`type` is spelled `ftype`). -/
structure PlanFileEntry where
  path : Option String
  ftype : Option String
  purpose : Option String
deriving Repr, DecidableEq

/-- A Plan object as consumed by `validatePlan`. -/
structure Plan where
  id : Option String
  title : Option String
  description : Option String
  category : Option String
  complexity : Option String
  estimatedLOC : Option Int
  dependencies : Option (List String)
  files : Option (List PlanFileEntry)
  safetyConsiderations : Option (List String)
deriving Repr, DecidableEq

/-- First error among a list of optional errors. -/
def firstErr : List (Option String) → Option String
  | [] => none
  | some e :: _ => some e
  | none :: rest => firstErr rest

/-- Joi `string().required()` (required, non-empty). -/
def reqStr (field : String) (v : Option String) : Option String :=
  match v with
  | none => some ("\x22" ++ field ++ "\x22 is required")
  | some s =>
    if s = "" then some ("\x22" ++ field ++ "\x22 is not allowed to be empty") else none

/-- Joi `string().min(lo).max(hi)` for a present value. -/
def strBounds (field : String) (v : Option String) (lo hi : Nat) : Option String :=
  match v with
  | none => none
  | some s =>
    if s.length < lo then
      some ("\x22" ++ field ++ "\x22 length must be at least " ++ toString lo
        ++ " characters long")
    else if s.length > hi then
      some ("\x22" ++ field ++ "\x22 length must be less than or equal to "
        ++ toString hi ++ " characters long")
    else none

/-- Joi `string().valid(...)` for a present value. -/
def oneOf (field : String) (v : Option String) (allowed : List String) : Option String :=
  match v with
  | none => none
  | some s =>
    if allowed.contains s then none
    else some ("\x22" ++ field ++ "\x22 must be one of ["
      ++ String.intercalate ", " allowed ++ "]")

/-- Joi `number().min(lo).max(hi)` on an optional field. -/
def numBounds (field : String) (v : Option Int) (lo hi : Int) : Option String :=
  match v with
  | none => none
  | some n =>
    if n < lo then
      some ("\x22" ++ field ++ "\x22 must be greater than or equal to " ++ toString lo)
    else if n > hi then
      some ("\x22" ++ field ++ "\x22 must be less than or equal to " ++ toString hi)
    else none

/-- Joi `array().max(k)` on an optional field. -/
def maxItems {α : Type} (field : String) (v : Option (List α)) (k : Nat) : Option String :=
  match v with
  | none => none
  | some l =>
    if l.length > k then
      some ("\x22" ++ field ++ "\x22 must contain less than or equal to "
        ++ toString k ++ " items")
    else none

/-- Per-entry schema of `plan.files` items. -/
def fileEntryCheck (e : PlanFileEntry) : Option String :=
  firstErr [reqStr "path" e.path, reqStr "type" e.ftype, reqStr "purpose" e.purpose]

/-- Schema of the `files` array. -/
def filesCheck (v : Option (List PlanFileEntry)) : Option String :=
  match v with
  | none => none
  | some es => firstErr (es.map fileEntryCheck)

/-- The Joi `planSchema.validate(plan)` call: first schema error, if any. -/
def schemaCheck (plan : Plan) : Option String :=
  firstErr
    [ reqStr "id" plan.id,
      reqStr "title" plan.title, strBounds "title" plan.title 3 100,
      reqStr "description" plan.description, strBounds "description" plan.description 10 1000,
      reqStr "category" plan.category,
      oneOf "category" plan.category ["api", "utility", "ui", "integration", "data"],
      reqStr "complexity" plan.complexity,
      oneOf "complexity" plan.complexity ["low", "medium", "high"],
      numBounds "estimatedLOC" plan.estimatedLOC 1 2000,
      maxItems "dependencies" plan.dependencies 10,
      maxItems "files" plan.files 5,
      filesCheck plan.files ]

/-- JSON string literal (escaping elided: validated plans are quote-free). -/
def jstrLit (s : String) : String := "\x22" ++ s ++ "\x22"

/-- Serialized fragment of an optional string property. -/
def fieldOpt (k : String) (v : Option String) : List String :=
  match v with
  | some s => [jstrLit k ++ ":" ++ jstrLit s]
  | none => []

/-- Serialized fragment of an optional number property. -/
def fieldNum (k : String) (v : Option Int) : List String :=
  match v with
  | some n => [jstrLit k ++ ":" ++ toString n]
  | none => []

/-- Serialized fragment of an optional string-array property. -/
def fieldArr (k : String) (v : Option (List String)) : List String :=
  match v with
  | some l => [jstrLit k ++ ":[" ++ String.intercalate "," (l.map jstrLit) ++ "]"]
  | none => []

/-- Serialized `files` entry. -/
def serializeFileEntry (e : PlanFileEntry) : String :=
  "\x7b" ++ String.intercalate ","
    (fieldOpt "path" e.path ++ fieldOpt "type" e.ftype ++ fieldOpt "purpose" e.purpose)
  ++ "\x7d"

/-- Serialized fragment of the optional `files` property. -/
def fieldFiles (k : String) (v : Option (List PlanFileEntry)) : List String :=
  match v with
  | some l =>
    [jstrLit k ++ ":[" ++ String.intercalate "," (l.map serializeFileEntry) ++ "]"]
  | none => []

/-- `JSON.stringify(plan)` with properties in schema order. -/
def serializePlan (p : Plan) : String :=
  "\x7b" ++ String.intercalate ","
    (fieldOpt "id" p.id ++ fieldOpt "title" p.title ++ fieldOpt "description" p.description
      ++ fieldOpt "category" p.category ++ fieldOpt "complexity" p.complexity
      ++ fieldNum "estimatedLOC" p.estimatedLOC
      ++ fieldArr "dependencies" p.dependencies
      ++ fieldFiles "files" p.files
      ++ fieldArr "safetyConsiderations" p.safetyConsiderations)
  ++ "\x7d"

/-- The fixed denylist in `checkSuspiciousContent`, in source order. -/
def suspiciousKeywords : List String :=
  ["delete", "remove", "destroy", "hack", "exploit",
   "malware", "virus", "backdoor", "shell", "exec",
   "password", "secret", "token", "credential"]

/-- First suspicious keyword contained in the serialized plan text. -/
def findSuspiciousKeyword (text : String) : Option String :=
  suspiciousKeywords.find? fun kw => containsStr kw text

/-- First declared file path escaping the `dynamic/` root. -/
def findUnsafePath : List PlanFileEntry → Option String
  | [] => none
  | e :: rest =>
    let p := e.path.getD ""
    if strStartsWith p "dynamic/" then findUnsafePath rest else some p

/-- `SafetyManager.checkSuspiciousContent`: `none` means safe, `some r`
is the rejection reason. -/
def checkSuspiciousContent (plan : Plan) : Option String :=
  let textContent := lowerStr (serializePlan plan)
  match findSuspiciousKeyword textContent with
  | some kw => some ("Suspicious keyword detected: " ++ kw)
  | none =>
    match findUnsafePath (plan.files.getD []) with
    | some p => some ("Unsafe file path: " ++ p ++ ". All files must be in dynamic/ directory")
    | none => none

/-- The fixed module allow-list in `loadAllowedModules`. -/
def allowedModules : List String :=
  ["crypto", "util", "events", "stream", "uuid",
   "joi", "lodash", "moment", "chalk", "winston"]

/-- `SafetyManager.validateDependencies`: first disallowed dependency. -/
def validateDependencies : List String → Option String
  | [] => none
  | d :: rest =>
    if allowedModules.contains d then validateDependencies rest
    else some ("Dependency \x27" ++ d ++ "\x27 is not in the allowed modules list")

/-- A plan-stage `ValidationReport`. -/
structure PlanReport where
  approved : Bool
  reason : String
  severity : String
deriving Repr, DecidableEq

/-- `SafetyManager.validatePlan`. -/
def validatePlan (plan : Plan) : PlanReport :=
  match schemaCheck plan with
  | some msg =>
    { approved := false, reason := "Plan validation failed: " ++ msg, severity := "high" }
  | none =>
    match checkSuspiciousContent plan with
    | some reason => { approved := false, reason := reason, severity := "high" }
    | none =>
      match validateDependencies (plan.dependencies.getD []) with
      | some reason => { approved := false, reason := reason, severity := "medium" }
      | none =>
        { approved := true, reason := "Plan passed all safety checks", severity := "none" }

/-! ### Dynamic testing (`SafetyManager.performDynamicTesting`)

The VM2 run itself is an oracle: either the wrapped script completes with
measured wall-clock time and heap delta, or it throws (runtime errors and
the vm2 timeout abort both surface as the thrown-error branch). -/

/-- Outcome of the `vm.run` call plus the surrounding measurements. -/
inductive DynRun where
  | completes (executionTime : Nat) (memoryDelta : Int)
  | throws (msg : String)
deriving Repr, DecidableEq

/-- `metrics` of a successful dynamic test (`result` payload elided). -/
structure DynMetrics where
  executionTime : Nat
  memoryDelta : Int
deriving Repr, DecidableEq

/-- Result object of `performDynamicTesting`. -/
structure DynReport where
  safe : Bool
  reason : String
  metrics : Option DynMetrics
  error : Option String
deriving Repr, DecidableEq

/-- `SafetyManager.performDynamicTesting`. -/
def performDynamicTesting (rules : SafetyRules) (run : DynRun) : DynReport :=
  match run with
  | .throws msg =>
    { safe := false, reason := "Dynamic testing failed: " ++ msg,
      metrics := none, error := some msg }
  | .completes t mem =>
    if t > rules.maxExecutionTime then
      { safe := false,
        reason := "Execution time (" ++ toString t ++ "ms) exceeded limit ("
          ++ toString rules.maxExecutionTime ++ "ms)",
        metrics := none, error := none }
    else if mem > rules.maxMemoryUsage then
      { safe := false,
        reason := "Memory usage (" ++ toString mem ++ " bytes) exceeded limit ("
          ++ toString rules.maxMemoryUsage ++ " bytes)",
        metrics := none, error := none }
    else
      { safe := true, reason := "",
        metrics := some { executionTime := t, memoryDelta := mem }, error := none }

/-! ### Pipeline events and sandbox coordinator -/

/-- Observable calls made by one `Autonomo.evolve` run, in order. -/
inductive PipelineEv where
  | planned
  | planValidated
  | codeGenerated
  | staticAnalyzed
  | dynamicTested
  | integrated
  | recorded (success : Bool)
  | reflected
  | quarantined
deriving Repr, DecidableEq

/-- Report returned by `testInSandbox` (the fields `evolve` reads). -/
structure SandboxReport where
  safe : Bool
  reason : String
deriving Repr, DecidableEq

/-- `SafetyManager.testInSandbox`: static analysis first, then the
dynamic test; a failing stage's object is returned unchanged.  The event
list records which stages ran. -/
def testInSandbox (rules : SafetyRules) (code : String) (run : DynRun) :
    SandboxReport × List PipelineEv :=
  let staticCheck := performStaticAnalysis rules code
  if staticCheck.safe = false then
    ({ safe := false, reason := staticCheck.reason }, [.staticAnalyzed])
  else
    let dynamicCheck := performDynamicTesting rules run
    if dynamicCheck.safe = false then
      ({ safe := false, reason := dynamicCheck.reason }, [.staticAnalyzed, .dynamicTested])
    else
      ({ safe := true, reason := "Code passed all sandbox tests" },
       [.staticAnalyzed, .dynamicTested])

/-- The durable record written by `SafetyManager.quarantineCode`. -/
structure QuarantineRecord where
  artifactText : String
  reason : String
  timestamp : Nat
deriving Repr, DecidableEq

/-- `SafetyManager.quarantineCode` (the record it persists). -/
def quarantineCode (code reason : String) (ts : Nat) : QuarantineRecord :=
  { artifactText := code, reason := reason, timestamp := ts }

/-! ### Feature registry (`FeatureManager`, `src/unnamed/part_001`)

Feature invocation inputs and results are JSON-like values.  A loaded
module is described by its surface: callable entry points as Lean
functions that may fail (a JS throw), other recognized shapes as
presence flags, plus the route table and the appended metadata block. -/

/-- JSON-like runtime values exchanged with features. -/
inductive JVal where
  | jnull
  | jbool (b : Bool)
  | jnum (n : Int)
  | jstr (s : String)
  | jobj (fields : List (String × JVal))
deriving Repr

/-- Property lookup on a JSON object value. -/
def lookupJ (k : String) : JVal → Option JVal
  | .jobj fields => fields.lookup k
  | _ => none

/-- The appended metadata block of a persisted feature file. -/
structure Metadata where
  id : String
  title : String
  description : String
  category : String
  complexity : String
  generated : String
deriving Repr, DecidableEq

/-- One route of a feature's route table. -/
structure Route where
  method : String
  path : String
  handler : String
  description : String
deriving Repr, DecidableEq

/-- Surface of a loaded JS module as probed by the `FeatureManager`. -/
structure JsModule where
  execute : Option (JVal → Except String JVal)
  selfCallable : Option (JVal → Except String JVal)
  handler : Option (JVal → Except String JVal)
  hasGet : Bool
  hasProcess : Bool
  hasValidate : Bool
  hasTransform : Bool
  routes : Option (List Route)
  hasSchedule : Bool
  hasWebhook : Bool
  health : Option String
  metadata : Option Metadata

/-- A module exposing nothing. -/
def emptyModule : JsModule :=
  { execute := none, selfCallable := none, handler := none,
    hasGet := false, hasProcess := false, hasValidate := false, hasTransform := false,
    routes := none, hasSchedule := false, hasWebhook := false,
    health := none, metadata := none }

/-- File stats used by `loadFeature` (dates kept as opaque strings). -/
structure FileStats where
  birthtime : String
  mtime : String
deriving Repr, DecidableEq

/-- A persisted unit under the storage root: the module its file
evaluates to plus its file stats. -/
structure StoredUnit where
  module : JsModule
  stats : FileStats

/-- The in-memory `Feature` wrapper built by `loadFeature`. -/
structure Feature where
  id : String
  name : String
  description : String
  category : String
  complexity : String
  filePath : String
  filename : String
  module : JsModule
  created : String
  lastModified : String
  lastUsed : Option Nat
  usageCount : Nat
  active : Bool
  routes : List Route
  capabilities : List String

/-- The registry's in-memory feature map (JS `Map` insertion order). -/
abbrev FeatureMap := List (String × Feature)

/-- `Map.prototype.get`. -/
def lookupF : FeatureMap → String → Option Feature
  | [], _ => none
  | (k, v) :: rest, key => if k = key then some v else lookupF rest key

/-- `Map.prototype.set`: replace in place, else append. -/
def setF : FeatureMap → String → Feature → FeatureMap
  | [], key, v => [(key, v)]
  | (k, w) :: rest, key, v =>
    if k = key then (k, v) :: rest else (k, w) :: setF rest key v

/-- JS `x || d` on a possibly-absent string (empty string is falsy). -/
def orElseStr (v : Option String) (d : String) : String :=
  match v with
  | some s => if s = "" then d else s
  | none => d

/-- Drop the first occurrence of a sub-list (`String.replace(pat, '')`). -/
def removeFirstSub (pat : List Char) : List Char → List Char
  | [] => []
  | c :: rest =>
    if pat.isPrefixOf (c :: rest) then (c :: rest).drop pat.length
    else c :: removeFirstSub pat rest

/-- `filename.replace('.js', '')`. -/
def stripJsExt (s : String) : String :=
  String.mk (removeFirstSub ".js".toList s.toList)

/-- Replace each maximal whitespace run by a single dash. -/
def squashWsAux (prevWs : Bool) : List Char → List Char
  | [] => []
  | c :: rest =>
    if isWsChar c then
      (if prevWs then [] else ['-']) ++ squashWsAux true rest
    else c :: squashWsAux false rest

/-- `title.toLowerCase().replace(/\s+/g, '-')`. -/
def slugify (title : String) : String :=
  String.mk (squashWsAux false (lowerStr title).toList)

/-- `FeatureManager.extractRoutes`. -/
def extractRoutes (m : JsModule) : List Route :=
  match m.routes with
  | some rs => rs
  | none =>
    let slug : String :=
      match m.metadata with
      | none => "feature"
      | some md =>
        let s := slugify md.title
        if s = "" then "feature" else s
    (if m.execute.isSome then
      [{ method := "POST", path := "/api/" ++ slug, handler := "execute",
         description := "Execute the main feature function" }]
     else []) ++
    (if m.hasGet then
      [{ method := "GET", path := "/api/" ++ slug, handler := "get",
         description := "Get feature data" }]
     else [])

/-- `FeatureManager.analyzeCapabilities`. -/
def analyzeCapabilities (m : JsModule) : List String :=
  (if m.execute.isSome then ["executable"] else []) ++
  (if m.hasGet then ["data-provider"] else []) ++
  (if m.hasProcess then ["processor"] else []) ++
  (if m.hasValidate then ["validator"] else []) ++
  (if m.hasTransform then ["transformer"] else []) ++
  (match m.routes with
   | some rs => if rs.length > 0 then ["api-provider"] else []
   | none => []) ++
  (if m.hasSchedule then ["scheduled"] else []) ++
  (if m.hasWebhook then ["webhook-handler"] else [])

/-- `FeatureManager.loadFeature`: build the feature wrapper for one
stored unit (`freshId` models the `uuidv4()` fallback). -/
def loadFeature (filename : String) (unit : StoredUnit) (freshId : String) : Feature :=
  let m := unit.module
  { id := orElseStr (m.metadata.map Metadata.id) freshId,
    name := orElseStr (m.metadata.map Metadata.title) (stripJsExt filename),
    description := orElseStr (m.metadata.map Metadata.description) "AI-generated feature",
    category := orElseStr (m.metadata.map Metadata.category) "utility",
    complexity := orElseStr (m.metadata.map Metadata.complexity) "medium",
    filePath := "dynamic/" ++ filename,
    filename := filename,
    module := m,
    created :=
      (match m.metadata with
       | some md => if md.generated = "" then unit.stats.birthtime else md.generated
       | none => unit.stats.birthtime),
    lastModified := unit.stats.mtime,
    lastUsed := none,
    usageCount := 0,
    active := true,
    routes := extractRoutes m,
    capabilities := analyzeCapabilities m }

/-- `loadFeature` including its `this.features.set(feature.id, feature)`. -/
def loadFeatureInto (st : FeatureMap) (filename : String) (unit : StoredUnit)
    (freshId : String) : Feature × FeatureMap :=
  let f := loadFeature filename unit freshId
  (f, setF st f.id f)

/-- `s.endsWith(suffix)` on a JS string. -/
def strEndsWith (s suffix : String) : Bool :=
  suffix.toList.reverse.isPrefixOf s.toList.reverse

/-- One step of the `loadAllFeatures` directory scan (the counter draws
successive `uuidv4()` values from the supply). -/
def loadAllStep (uuidSupply : Nat → String) (acc : FeatureMap × Nat)
    (entry : String × StoredUnit) : FeatureMap × Nat :=
  if strEndsWith entry.1 ".js" then
    ((loadFeatureInto acc.1 entry.1 entry.2 (uuidSupply acc.2)).2, acc.2 + 1)
  else acc

/-- The `loadAllFeatures` fold with its uuid counter. -/
def loadAllFeaturesAux (uuidSupply : Nat → String) (storage : List (String × StoredUnit)) :
    FeatureMap × Nat :=
  storage.foldl (loadAllStep uuidSupply) (([] : FeatureMap), 0)

/-- `FeatureManager.loadAllFeatures` on a fresh manager: scan the storage
root, loading every `.js` unit. -/
def loadAllFeatures (storage : List (String × StoredUnit)) (uuidSupply : Nat → String) :
    FeatureMap :=
  (loadAllFeaturesAux uuidSupply storage).1

/-- Typed errors thrown by `executeFeature` (constructors carry what the
JS `Error` message interpolates). -/
inductive ExecError where
  | notFound (featureId : String)
  | inactive (name : String)
  | executionFailed (msg : String)
deriving Repr, DecidableEq

/-- The `error.message` of each typed error. -/
def execErrorMessage : ExecError → String
  | .notFound fid => "Feature not found: " ++ fid
  | .inactive n => "Feature is inactive: " ++ n
  | .executionFailed m => "Feature execution failed: " ++ m

/-- The result object of a successful `executeFeature` call. -/
structure ExecSuccess where
  result : JVal
  featureId : String
  featureName : String
  featureUsageCount : Nat
  timestamp : Nat

/-- The execution-method cascade inside `executeFeature`'s `try` block. -/
def dispatchModule (m : JsModule) (input : JVal) : Except String JVal :=
  match m.execute with
  | some f => f input
  | none =>
    match m.selfCallable with
    | some f => f input
    | none =>
      match m.handler with
      | some f => f input
      | none => Except.error "No executable method found in feature"

/-- `FeatureManager.executeFeature` (`now` models `new Date()`). -/
def executeFeature (st : FeatureMap) (featureId : String) (input : JVal) (now : Nat) :
    Except ExecError ExecSuccess × FeatureMap :=
  match lookupF st featureId with
  | none => (Except.error (.notFound featureId), st)
  | some feature =>
    if feature.active = false then
      (Except.error (.inactive feature.name), st)
    else
      let feature' := { feature with lastUsed := some now, usageCount := feature.usageCount + 1 }
      let st' := setF st featureId feature'
      match dispatchModule feature'.module input with
      | Except.ok result =>
        (Except.ok { result := result, featureId := feature'.id, featureName := feature'.name,
                     featureUsageCount := feature'.usageCount, timestamp := now }, st')
      | Except.error msg => (Except.error (.executionFailed msg), st')

/-! ### Feature integration (`integrateFeature`, `wrapFeatureCode`,
`testFeature`) -/

/-- What generated code evaluates to inside `wrapFeatureCode`'s
`userCode()` call. -/
inductive ArtifactExports where
  | objExports (m : JsModule)
  | fnExports (f : JVal → Except String JVal)
  | initThrows (msg : String)

/-- JS template interpolation of a possibly-absent string. -/
def jsTemplate (v : Option String) : String := v.getD "undefined"

/-- `FeatureManager.wrapFeatureCode`, at the level of the module the
wrapped file evaluates to: a throwing initializer yields `{}`, a
non-object export is wrapped as `{execute: exports}`, and the wrapper
appends the plan metadata block and an always-healthy `health` probe. -/
def wrapModule (artifact : ArtifactExports) (plan : Plan) (genTime : String) : JsModule :=
  let base : JsModule :=
    match artifact with
    | .objExports m => m
    | .fnExports f => { emptyModule with execute := some f }
    | .initThrows _ => emptyModule
  { base with
    metadata := some
      { id := jsTemplate plan.id, title := jsTemplate plan.title,
        description := jsTemplate plan.description, category := jsTemplate plan.category,
        complexity := jsTemplate plan.complexity, generated := genTime },
    health := some "healthy" }

/-- `plan.title.replace(/[^a-zA-Z0-9]/g, '-').toLowerCase()`. -/
def sanitizeTitle (t : String) : String :=
  lowerStr (String.mk (t.toList.map fun c => if c.isAlphanum then c else '-'))

/-- `FeatureManager.testFeature`: a failing health probe deactivates the
feature and reports the failure; the timed `execute` probe with synthetic
input `{test: true}` has its outcome discarded (warnings only). -/
def testFeature (f : Feature) : Option String × Feature :=
  let healthFailure : Option String :=
    match f.module.health with
    | some status =>
      if status = "healthy" then none else some ("Health check failed: " ++ status)
    | none => none
  match healthFailure with
  | some msg => (some msg, { f with active := false })
  | none =>
    let _testRun := f.module.execute.map fun ex => ex (JVal.jobj [("test", JVal.jbool true)])
    (none, f)

/-- The generated feature filename
`feature-${timestamp}-${safeTitle}.js`. -/
def mkFilename (plan : Plan) (ts : Nat) : String :=
  "feature-" ++ toString ts ++ "-" ++ sanitizeTitle (jsTemplate plan.title) ++ ".js"

/-- The stored unit the wrapped feature file evaluates to. -/
def mkUnit (artifact : ArtifactExports) (plan : Plan) (genTime : String)
    (stats : FileStats) : StoredUnit :=
  { module := wrapModule artifact plan genTime, stats := stats }

/-- `FeatureManager.integrateFeature`: wrap, persist, load, then
self-test; a failing self-test leaves the (deactivated) feature in the
map and the file in storage, and surfaces the error. -/
def integrateFeature (st : FeatureMap) (storage : List (String × StoredUnit))
    (artifact : ArtifactExports) (plan : Plan) (ts : Nat) (genTime : String)
    (stats : FileStats) (freshId : String) :
    Except String Feature × FeatureMap × List (String × StoredUnit) :=
  let filename := mkFilename plan ts
  let unit := mkUnit artifact plan genTime stats
  let storage' := storage ++ [(filename, unit)]
  let loaded := loadFeatureInto st filename unit freshId
  match testFeature loaded.1 with
  | (none, f') => (Except.ok f', setF loaded.2 f'.id f', storage')
  | (some e, f') => (Except.error e, setF loaded.2 f'.id f', storage')

/-! ### The validation pipeline (`Autonomo.evolve`, `src/unnamed/part_007`) -/

/-- Inputs of one `evolve` run: the plan the planner returns, the code
text the coder generates, what that code does in the VM2 sandbox and what
it evaluates to when loaded, plus the registry state and fresh
identifiers/timestamps. -/
structure EvolveEnv where
  plan : Plan
  genCode : String
  dynRun : DynRun
  artifact : ArtifactExports
  fmState : FeatureMap
  storage : List (String × StoredUnit)
  ts : Nat
  genTime : String
  stats : FileStats
  freshId : String
  evolutionId : String

/-- The value a successful `evolve` resolves with (the fields derived
from the pipeline; `plan`/`learnings` pass-throughs elided). -/
structure EvolveOutcome where
  evolutionId : String
  featureId : String
  featureName : String
  featureDescription : String
deriving Repr, DecidableEq

/-- `Autonomo.evolve`: plan validation, code generation, sandbox testing,
feature integration; any failure is caught, recorded as an unsuccessful
evolution, and re-thrown.  The event list records the collaborator calls
the run makes, in order. -/
def evolve (rules : SafetyRules) (env : EvolveEnv) :
    Except String EvolveOutcome × List PipelineEv :=
  let safetyCheck := validatePlan env.plan
  if safetyCheck.approved = false then
    (Except.error ("Safety validation failed: " ++ safetyCheck.reason),
     [.planned, .planValidated, .recorded false])
  else
    let sandbox := testInSandbox rules env.genCode env.dynRun
    if sandbox.1.safe = false then
      (Except.error ("Code failed sandbox test: " ++ sandbox.1.reason),
       [.planned, .planValidated, .codeGenerated] ++ sandbox.2 ++ [.recorded false])
    else
      match integrateFeature env.fmState env.storage env.artifact env.plan env.ts
          env.genTime env.stats env.freshId with
      | (Except.error e, _, _) =>
        (Except.error e,
         [.planned, .planValidated, .codeGenerated] ++ sandbox.2 ++ [.recorded false])
      | (Except.ok feature, _, _) =>
        (Except.ok { evolutionId := env.evolutionId, featureId := feature.id,
                     featureName := feature.name, featureDescription := feature.description },
         [.planned, .planValidated, .codeGenerated] ++ sandbox.2
           ++ [.integrated, .recorded true, .reflected])

/-! ### Concrete inputs used by the verification scenarios -/

/-- Fixed file stats for scenario runs. -/
def envStats : FileStats := { birthtime := "bt", mtime := "mt" }

/-- Scenario A plan: `{title: "Hack the system", ...}` (spec §8). -/
def hackPlan : Plan :=
  { id := some "hack-plan", title := some "Hack the system",
    description := some "This will hack something", category := some "utility",
    complexity := some "low", estimatedLOC := none, dependencies := none,
    files := none, safetyConsiderations := none }

/-- A schema- and policy-clean plan (mirrors the repo's test fixture). -/
def validPlan : Plan :=
  { id := some "test-plan-001", title := some "Valid Feature",
    description := some "A safe and valid feature plan", category := some "utility",
    complexity := some "low", estimatedLOC := some 50, dependencies := some ["crypto"],
    files := some [{ path := some "dynamic/test-feature.js", ftype := some "main",
                     purpose := some "Main feature implementation" }],
    safetyConsiderations := some ["Input checks", "Error handling"] }

/-- Scenario C artifact body: `execute(input)` returning
`{doubled: input.value * 2}`. -/
def doublerFn : JVal → Except String JVal := fun input =>
  match lookupJ "value" input with
  | some (JVal.jnum n) => Except.ok (JVal.jobj [("doubled", JVal.jnum (n * 2))])
  | _ => Except.ok (JVal.jobj [("doubled", JVal.jnull)])

/-- Scenario C artifact exports. -/
def doublerArtifact : ArtifactExports :=
  .objExports { emptyModule with execute := some doublerFn }

/-- Scenario C plan. -/
def doublerPlan : Plan :=
  { id := some "plan-doubler", title := some "Value Doubler",
    description := some "Doubles the provided numeric value",
    category := some "utility", complexity := some "low", estimatedLOC := none,
    dependencies := none, files := none, safetyConsiderations := none }

/-- Scenario C registration against an empty registry and storage root. -/
def c4Setup := integrateFeature [] [] doublerArtifact doublerPlan 1700 "2025-01-01" envStats "uuid-1"

/-- Scenario C invocation with `{value: 5}`. -/
def c4Invoke := executeFeature c4Setup.2.1 "plan-doubler" (JVal.jobj [("value", JVal.jnum 5)]) 999

/-- The feature Scenario C registers (what `integrateFeature` returns). -/
def c4Feature : Feature :=
  loadFeature (mkFilename doublerPlan 1700) (mkUnit doublerArtifact doublerPlan "2025-01-01" envStats) "uuid-1"

/-- A uuid supply for reload runs. -/
def c5Supply : Nat → String := fun n => "fresh-" ++ toString n

/-- An evolve run whose plan is rejected (Scenario A plan). -/
def envPlanRejected : EvolveEnv :=
  { plan := hackPlan,
    genCode := "const a = 1;", dynRun := .completes 1 0,
    artifact := .objExports emptyModule, fmState := [], storage := [], ts := 1,
    genTime := "g", stats := envStats, freshId := "u1", evolutionId := "e1" }

/-- An evolve run rejected by static analysis (`eval(` in the code). -/
def envStaticRejected : EvolveEnv :=
  { envPlanRejected with plan := validPlan, genCode := "eval(x)" }

/-- An evolve run rejected by the dynamic sandbox test (script throws). -/
def envDynRejected : EvolveEnv :=
  { envPlanRejected with plan := validPlan, dynRun := .throws "Intentional error" }

/-- An artifact whose executable entry point always throws. -/
def throwingArtifact : ArtifactExports :=
  .objExports { emptyModule with execute := some fun _ => Except.error "boom" }

/-- Plan for registering the always-throwing artifact. -/
def c6Plan : Plan :=
  { id := some "plan-broken", title := some "Broken Feature",
    description := some "An entry point that always fails", category := some "utility",
    complexity := some "low", estimatedLOC := none, dependencies := none,
    files := none, safetyConsiderations := none }

/-- Registration of the always-throwing artifact. -/
def c6Setup := integrateFeature [] [] throwingArtifact c6Plan 3 "g" envStats "u6"

/-- A module with a trivially succeeding entry point. -/
def sampleModule : JsModule :=
  { emptyModule with execute := some fun _ => Except.ok JVal.jnull }

/-- A deactivated feature, as `deactivateFeature` leaves it. -/
def inactiveFeature : Feature :=
  { (loadFeature "sample.js" { module := sampleModule, stats := envStats } "fid-1") with
    active := false }

/-- An active feature whose callee always throws. -/
def throwingFeature : Feature :=
  loadFeature "boom.js"
    { module := { emptyModule with execute := some fun _ => Except.error "boom" },
      stats := envStats } "fid-2"

/-- A feature whose health probe reports an unhealthy status. -/
def unhealthyFeature : Feature :=
  loadFeature "sick.js"
    { module := { emptyModule with health := some "sick" }, stats := envStats } "fid-3"

/-! ### Helper lemmas -/

theorem lookupF_setF_self (l : FeatureMap) (k : String) (v : Feature) :
    lookupF (setF l k v) k = some v := by
  induction l with
  | nil => simp [setF, lookupF]
  | cons hd tl ih =>
    by_cases hk : hd.1 = k
    · simp [setF, lookupF, hk]
    · simpa [setF, lookupF, hk] using ih

theorem lookupF_setF_ne (l : FeatureMap) (k k' : String) (v : Feature) (h : k' ≠ k) :
    lookupF (setF l k v) k' = lookupF l k' := by
  induction l with
  | nil =>
    simp only [setF, lookupF]
    rw [if_neg fun hc => h hc.symm]
  | cons hd tl ih =>
    obtain ⟨a, w⟩ := hd
    by_cases hk : a = k
    · subst hk
      simp only [setF, if_pos rfl, lookupF]
      rw [if_neg fun hc => h hc.symm, if_neg fun hc => h hc.symm]
    · simp only [setF, if_neg hk, lookupF]
      by_cases hk' : a = k'
      · rw [if_pos hk', if_pos hk']
      · rw [if_neg hk', if_neg hk', ih]

theorem loadFeature_module (fn : String) (u : StoredUnit) (i : String) :
    (loadFeature fn u i).module = u.module := rfl

theorem wrapModule_health (a : ArtifactExports) (p : Plan) (g : String) :
    (wrapModule a p g).health = some "healthy" := rfl

theorem testFeature_healthy (f : Feature) (h : f.module.health = some "healthy") :
    testFeature f = (none, f) := by
  simp [testFeature, h]

theorem integrateFeature_eq (st : FeatureMap) (storage : List (String × StoredUnit))
    (artifact : ArtifactExports) (plan : Plan) (ts : Nat) (genTime : String)
    (stats : FileStats) (freshId : String) :
    integrateFeature st storage artifact plan ts genTime stats freshId =
      (Except.ok (loadFeature (mkFilename plan ts) (mkUnit artifact plan genTime stats) freshId),
       setF
         (setF st (loadFeature (mkFilename plan ts) (mkUnit artifact plan genTime stats) freshId).id
           (loadFeature (mkFilename plan ts) (mkUnit artifact plan genTime stats) freshId))
         (loadFeature (mkFilename plan ts) (mkUnit artifact plan genTime stats) freshId).id
         (loadFeature (mkFilename plan ts) (mkUnit artifact plan genTime stats) freshId),
       storage ++ [(mkFilename plan ts, mkUnit artifact plan genTime stats)]) := by
  have ht :
      testFeature (loadFeature (mkFilename plan ts) (mkUnit artifact plan genTime stats) freshId) =
        (none, loadFeature (mkFilename plan ts) (mkUnit artifact plan genTime stats) freshId) :=
    testFeature_healthy _ rfl
  simp [integrateFeature, loadFeatureInto, ht]

theorem isPrefixOf_self_append (l r : List Char) : l.isPrefixOf (l ++ r) = true := by
  induction l with
  | nil => simp [List.isPrefixOf]
  | cons c t ih => simp [List.isPrefixOf, ih]

theorem strEndsWith_append (s t : String) : strEndsWith (s ++ t) t = true := by
  have : (s ++ t).toList = s.toList ++ t.toList := by
    simp [String.toList]
  simp [strEndsWith, this, List.reverse_append, isPrefixOf_self_append]

theorem mkFilename_endsWith (plan : Plan) (ts : Nat) :
    strEndsWith (mkFilename plan ts) ".js" = true := by
  unfold mkFilename
  exact strEndsWith_append _ _

theorem loadFeature_freshId_irrel (fn : String) (u : StoredUnit) (a b : String)
    (md : Metadata) (hm : u.module.metadata = some md) (hid : md.id ≠ "") :
    loadFeature fn u a = loadFeature fn u b := by
  simp [loadFeature, orElseStr, hm, hid]

theorem loadAllFeaturesAux_append (supply : Nat → String)
    (storage : List (String × StoredUnit)) (x : String × StoredUnit) :
    loadAllFeaturesAux supply (storage ++ [x]) =
      loadAllStep supply (loadAllFeaturesAux supply storage) x := by
  simp [loadAllFeaturesAux, List.foldl_append]

theorem findBanned_of_exists (ps : List BannedPattern) (code : List Char)
    (h : ∃ p ∈ ps, (firstMatchList p code).isSome) :
    ∃ p m, findBanned ps code = some (p, m) ∧ p ∈ ps ∧ firstMatchList p code = some m := by
  induction ps with
  | nil => simp at h
  | cons q qs ih =>
    cases hq : firstMatchList q code with
    | some m =>
      exact ⟨q, m, by simp [findBanned, hq], by simp, hq⟩
    | none =>
      obtain ⟨p, hp, hpm⟩ := h
      rcases List.mem_cons.mp hp with hpq | hmem
      · subst hpq
        rw [hq] at hpm
        simp at hpm
      · obtain ⟨p', m', hfind, hmem', hm'⟩ := ih ⟨p, hmem, hpm⟩
        exact ⟨p', m', by simp [findBanned, hq, hfind], List.mem_cons_of_mem _ hmem', hm'⟩

theorem testInSandbox_shape (rules : SafetyRules) (code : String) (run : DynRun) :
    ((testInSandbox rules code run).1.safe = false ∧
      (testInSandbox rules code run).2 = [PipelineEv.staticAnalyzed]) ∨
    ((testInSandbox rules code run).1.safe = false ∧
      (testInSandbox rules code run).2 = [PipelineEv.staticAnalyzed, PipelineEv.dynamicTested]) ∨
    ((testInSandbox rules code run).1.safe = true ∧
      (testInSandbox rules code run).2 = [PipelineEv.staticAnalyzed, PipelineEv.dynamicTested]) := by
  by_cases h1 : (performStaticAnalysis rules code).safe = false
  · exact Or.inl (by simp [testInSandbox, h1])
  · by_cases h2 : (performDynamicTesting rules run).safe = false
    · exact Or.inr (Or.inl (by simp [testInSandbox, h1, h2]))
    · exact Or.inr (Or.inr (by simp [testInSandbox, h1, h2]))

theorem evolve_shape (rules : SafetyRules) (env : EvolveEnv) :
    (∃ msg, evolve rules env =
      (Except.error msg, [PipelineEv.planned, PipelineEv.planValidated, PipelineEv.recorded false])) ∨
    (∃ msg, evolve rules env =
      (Except.error msg, [PipelineEv.planned, PipelineEv.planValidated, PipelineEv.codeGenerated,
        PipelineEv.staticAnalyzed, PipelineEv.recorded false])) ∨
    (∃ msg, evolve rules env =
      (Except.error msg, [PipelineEv.planned, PipelineEv.planValidated, PipelineEv.codeGenerated,
        PipelineEv.staticAnalyzed, PipelineEv.dynamicTested, PipelineEv.recorded false])) ∨
    (∃ v, evolve rules env =
      (Except.ok v, [PipelineEv.planned, PipelineEv.planValidated, PipelineEv.codeGenerated,
        PipelineEv.staticAnalyzed, PipelineEv.dynamicTested, PipelineEv.integrated,
        PipelineEv.recorded true, PipelineEv.reflected])) := by
  by_cases h1 : (validatePlan env.plan).approved = false
  · exact Or.inl ⟨"Safety validation failed: " ++ (validatePlan env.plan).reason,
      by simp [evolve, h1]⟩
  · rcases testInSandbox_shape rules env.genCode env.dynRun with ⟨hs, htr⟩ | ⟨hs, htr⟩ | ⟨hs, htr⟩
    · exact Or.inr (Or.inl
        ⟨"Code failed sandbox test: " ++ (testInSandbox rules env.genCode env.dynRun).1.reason,
         by simp [evolve, h1, hs, htr]⟩)
    · exact Or.inr (Or.inr (Or.inl
        ⟨"Code failed sandbox test: " ++ (testInSandbox rules env.genCode env.dynRun).1.reason,
         by simp [evolve, h1, hs, htr]⟩))
    · rcases hI : integrateFeature env.fmState env.storage env.artifact env.plan env.ts
        env.genTime env.stats env.freshId with ⟨res, stI, stoI⟩
      cases res with
      | error e =>
        exact Or.inr (Or.inr (Or.inl ⟨e, by simp [evolve, h1, hs, htr, hI]⟩))
      | ok v =>
        exact Or.inr (Or.inr (Or.inr
          ⟨{ evolutionId := env.evolutionId, featureId := v.id, featureName := v.name,
             featureDescription := v.description },
           by simp [evolve, h1, hs, htr, hI]⟩))

/-! ### Claim theorems -/

set_option maxRecDepth 16384

/-- C7: for the specific Plan titled "Hack the system" (with a
schema-valid id and description), `validatePlan` rejects with
`approved = false` and a reason string containing "hack". -/
theorem c7_hack_plan_rejected :
    validatePlan hackPlan =
      { approved := false, reason := "Suspicious keyword detected: hack", severity := "high" } ∧
    containsStr "hack" (validatePlan hackPlan).reason = true := by
  exact ⟨by decide, by decide⟩

/-- C9 counterexample: a sandbox run that fails (a thrown runtime error,
or a measured time-limit violation) produces a report with `metrics =
none`: neither the elapsed execution time nor the heap delta is included
on failure, refuting the claim that both are reported on failure too. -/
theorem c9_counterexample :
    performDynamicTesting defaultSafetyRules (DynRun.throws "Intentional error") =
      { safe := false, reason := "Dynamic testing failed: Intentional error",
        metrics := none, error := some "Intentional error" } ∧
    (performDynamicTesting defaultSafetyRules (DynRun.throws "Intentional error")).metrics
      = none ∧
    (performDynamicTesting defaultSafetyRules (DynRun.completes 40000 5)).metrics = none := by
  exact ⟨rfl, rfl, rfl⟩

/-- C9 amended: the measured execution time and heap delta are included
in the dynamic-testing report only on success; every failing run (time or
memory violation, or a thrown error) yields a report without metrics. -/
theorem c9_amended_metrics_only_on_success (rules : SafetyRules) (run : DynRun) :
    ((performDynamicTesting rules run).safe = true →
      ∃ t mem, run = DynRun.completes t mem ∧
        (performDynamicTesting rules run).metrics =
          some { executionTime := t, memoryDelta := mem }) ∧
    ((performDynamicTesting rules run).safe = false →
      (performDynamicTesting rules run).metrics = none) := by
  cases run with
  | throws msg =>
    constructor
    · intro h
      simp [performDynamicTesting] at h
    · intro _
      rfl
  | completes t mem =>
    by_cases h1 : t > rules.maxExecutionTime
    · constructor
      · intro h
        simp [performDynamicTesting, h1] at h
      · intro _
        simp [performDynamicTesting, h1]
    · by_cases h2 : mem > rules.maxMemoryUsage
      · constructor
        · intro h
          simp [performDynamicTesting, h1, h2] at h
        · intro _
          simp [performDynamicTesting, h1, h2]
      · constructor
        · intro _
          exact ⟨t, mem, rfl, by simp [performDynamicTesting, h1, h2]⟩
        · intro h
          simp [performDynamicTesting, h1, h2] at h

/-- C9 witness: the amended statement at a succeeding and a failing run. -/
theorem c9_witness :
    (∃ t mem, DynRun.completes 5 7 = DynRun.completes t mem ∧
      (performDynamicTesting defaultSafetyRules (DynRun.completes 5 7)).metrics =
        some { executionTime := t, memoryDelta := mem }) ∧
    (performDynamicTesting defaultSafetyRules (DynRun.throws "x")).metrics = none :=
  ⟨(c9_amended_metrics_only_on_success defaultSafetyRules (DynRun.completes 5 7)).1 (by rfl),
   (c9_amended_metrics_only_on_success defaultSafetyRules (DynRun.throws "x")).2 (by rfl)⟩

/-- C3: invoking an unknown feature id fails with the typed `notFound`
error and invoking an inactive feature fails with the typed `inactive`
error; in both cases the registry state is returned unchanged, so
`usageCount` and `lastUsed` of every feature are untouched. -/
theorem c3_unknown_or_inactive_invocation_fails (st : FeatureMap) (fid : String)
    (input : JVal) (now : Nat) :
    (lookupF st fid = none →
      executeFeature st fid input now = (Except.error (ExecError.notFound fid), st)) ∧
    (∀ f, lookupF st fid = some f → f.active = false →
      executeFeature st fid input now = (Except.error (ExecError.inactive f.name), st)) := by
  constructor
  · intro h
    simp [executeFeature, h]
  · intro f hf ha
    simp [executeFeature, hf, ha]

/-- C3 witness: an unknown id on an empty registry, and a deactivated
feature, both fail with the typed error and leave the state unchanged. -/
theorem c3_witness :
    executeFeature [] "missing" JVal.jnull 7 =
      (Except.error (ExecError.notFound "missing"), []) ∧
    executeFeature [("fid-1", inactiveFeature)] "fid-1" JVal.jnull 7 =
      (Except.error (ExecError.inactive inactiveFeature.name), [("fid-1", inactiveFeature)]) :=
  ⟨(c3_unknown_or_inactive_invocation_fails [] "missing" JVal.jnull 7).1 rfl,
   (c3_unknown_or_inactive_invocation_fails [("fid-1", inactiveFeature)] "fid-1" JVal.jnull
     7).2 inactiveFeature rfl rfl⟩

/-- C10 (implicit): invoking an existing active feature increments
`usageCount` and sets `lastUsed` before dispatching; a throwing callee
surfaces as `executionFailed` with no rollback, so the counter stays
incremented; all other fields of the feature, and all other features,
are unchanged. -/
theorem c10_usage_counted_before_dispatch_no_rollback (st : FeatureMap) (fid : String)
    (input : JVal) (now : Nat) (f : Feature)
    (hlook : lookupF st fid = some f) (hact : f.active = true) :
    ∃ f', lookupF (executeFeature st fid input now).2 fid = some f' ∧
      f'.usageCount = f.usageCount + 1 ∧ f'.lastUsed = some now ∧
      f'.id = f.id ∧ f'.name = f.name ∧ f'.description = f.description ∧
      f'.category = f.category ∧ f'.complexity = f.complexity ∧
      f'.filePath = f.filePath ∧ f'.filename = f.filename ∧
      f'.module = f.module ∧ f'.created = f.created ∧ f'.lastModified = f.lastModified ∧
      f'.active = f.active ∧ f'.routes = f.routes ∧ f'.capabilities = f.capabilities ∧
      (∀ k, k ≠ fid → lookupF (executeFeature st fid input now).2 k = lookupF st k) ∧
      (∀ msg, dispatchModule f.module input = Except.error msg →
        (executeFeature st fid input now).1 = Except.error (ExecError.executionFailed msg)) := by
  have hexec2 : (executeFeature st fid input now).2 =
      setF st fid { f with lastUsed := some now, usageCount := f.usageCount + 1 } := by
    cases hd : dispatchModule f.module input <;> simp [executeFeature, hlook, hact, hd]
  refine ⟨{ f with lastUsed := some now, usageCount := f.usageCount + 1 },
    ?_, rfl, rfl, rfl, rfl, rfl, rfl, rfl, rfl, rfl, rfl, rfl, rfl, rfl, rfl, rfl, ?_, ?_⟩
  · rw [hexec2]
    exact lookupF_setF_self st fid _
  · intro k hk
    rw [hexec2]
    exact lookupF_setF_ne st fid k _ hk
  · intro msg hmsg
    simp [executeFeature, hlook, hact, hmsg]

/-- C10 witness: a feature whose callee always throws still ends up with
`usageCount` incremented and `lastUsed` set after the failed invocation. -/
theorem c10_witness :
    ∃ f', lookupF (executeFeature [("fid-2", throwingFeature)] "fid-2" (JVal.jnum 1) 42).2
        "fid-2" = some f' ∧
      f'.usageCount = throwingFeature.usageCount + 1 ∧ f'.lastUsed = some 42 ∧
      f'.id = throwingFeature.id ∧ f'.name = throwingFeature.name ∧
      f'.description = throwingFeature.description ∧
      f'.category = throwingFeature.category ∧ f'.complexity = throwingFeature.complexity ∧
      f'.filePath = throwingFeature.filePath ∧ f'.filename = throwingFeature.filename ∧
      f'.module = throwingFeature.module ∧ f'.created = throwingFeature.created ∧
      f'.lastModified = throwingFeature.lastModified ∧
      f'.active = throwingFeature.active ∧ f'.routes = throwingFeature.routes ∧
      f'.capabilities = throwingFeature.capabilities ∧
      (∀ k, k ≠ "fid-2" →
        lookupF (executeFeature [("fid-2", throwingFeature)] "fid-2" (JVal.jnum 1) 42).2 k =
          lookupF [("fid-2", throwingFeature)] k) ∧
      (∀ msg, dispatchModule throwingFeature.module (JVal.jnum 1) = Except.error msg →
        (executeFeature [("fid-2", throwingFeature)] "fid-2" (JVal.jnum 1) 42).1 =
          Except.error (ExecError.executionFailed msg)) :=
  c10_usage_counted_before_dispatch_no_rollback [("fid-2", throwingFeature)] "fid-2"
    (JVal.jnum 1) 42 throwingFeature rfl rfl

/-- C2: any stage rejection short-circuits `evolve` to a terminal error
carrying that stage's reason verbatim (as the suffix of the thrown
message), and the run's call trace shows that no later stage executes:
after plan rejection neither code generation, static analysis, sandbox
execution nor integration runs; after static rejection neither the
dynamic sandbox test nor integration runs; after sandbox rejection
integration never runs. -/
theorem c2_rejection_short_circuits (rules : SafetyRules) (env : EvolveEnv) :
    ((validatePlan env.plan).approved = false →
      evolve rules env =
        (Except.error ("Safety validation failed: " ++ (validatePlan env.plan).reason),
         [PipelineEv.planned, PipelineEv.planValidated, PipelineEv.recorded false])) ∧
    ((validatePlan env.plan).approved = true →
      (performStaticAnalysis rules env.genCode).safe = false →
      evolve rules env =
        (Except.error
          ("Code failed sandbox test: " ++ (performStaticAnalysis rules env.genCode).reason),
         [PipelineEv.planned, PipelineEv.planValidated, PipelineEv.codeGenerated,
          PipelineEv.staticAnalyzed, PipelineEv.recorded false])) ∧
    ((validatePlan env.plan).approved = true →
      (performStaticAnalysis rules env.genCode).safe = true →
      (performDynamicTesting rules env.dynRun).safe = false →
      evolve rules env =
        (Except.error
          ("Code failed sandbox test: " ++ (performDynamicTesting rules env.dynRun).reason),
         [PipelineEv.planned, PipelineEv.planValidated, PipelineEv.codeGenerated,
          PipelineEv.staticAnalyzed, PipelineEv.dynamicTested, PipelineEv.recorded false])) := by
  refine ⟨fun h1 => ?_, fun h1 h2 => ?_, fun h1 h2 h3 => ?_⟩
  · simp [evolve, h1]
  · simp [evolve, testInSandbox, h1, h2]
  · simp [evolve, testInSandbox, h1, h2, h3]

/-- C2 witness: the three short-circuits at concrete runs — a rejected
plan, code carrying a banned `eval(` pattern, and a sandbox script that
throws. -/
theorem c2_witness :
    evolve defaultSafetyRules envPlanRejected =
      (Except.error ("Safety validation failed: "
        ++ (validatePlan envPlanRejected.plan).reason),
       [PipelineEv.planned, PipelineEv.planValidated, PipelineEv.recorded false]) ∧
    evolve defaultSafetyRules envStaticRejected =
      (Except.error ("Code failed sandbox test: "
        ++ (performStaticAnalysis defaultSafetyRules envStaticRejected.genCode).reason),
       [PipelineEv.planned, PipelineEv.planValidated, PipelineEv.codeGenerated,
        PipelineEv.staticAnalyzed, PipelineEv.recorded false]) ∧
    evolve defaultSafetyRules envDynRejected =
      (Except.error ("Code failed sandbox test: "
        ++ (performDynamicTesting defaultSafetyRules envDynRejected.dynRun).reason),
       [PipelineEv.planned, PipelineEv.planValidated, PipelineEv.codeGenerated,
        PipelineEv.staticAnalyzed, PipelineEv.dynamicTested, PipelineEv.recorded false]) :=
  ⟨(c2_rejection_short_circuits defaultSafetyRules envPlanRejected).1 (by decide),
   (c2_rejection_short_circuits defaultSafetyRules envStaticRejected).2.1 (by decide) (by decide),
   (c2_rejection_short_circuits defaultSafetyRules envDynRejected).2.2 (by decide) (by decide)
     (by decide)⟩

/-- C1 counterexample: a run rejected at plan validation terminates with
the rejection error, yet its complete call trace contains no quarantine
write — `Autonomo.evolve` never hands the code and reason to
`SafetyManager.quarantineCode`, so no durable quarantine record is
written before the run terminates. -/
theorem c1_counterexample :
    evolve defaultSafetyRules envPlanRejected =
      (Except.error "Safety validation failed: Suspicious keyword detected: hack",
       [PipelineEv.planned, PipelineEv.planValidated, PipelineEv.recorded false]) ∧
    ((evolve defaultSafetyRules envPlanRejected).2.contains PipelineEv.quarantined) = false := by
  exact ⟨by rfl, by decide⟩

/-- C1 amended: on rejection at any stage the pipeline terminates the
candidate's run with an error carrying the stage's reason and records a
failed evolution; it never writes a quarantine record — the Quarantine
Store is not invoked by the pipeline on any run. -/
theorem c1_amended_no_quarantine_failure_recorded (rules : SafetyRules) (env : EvolveEnv) :
    PipelineEv.quarantined ∉ (evolve rules env).2 ∧
    (∀ msg, (evolve rules env).1 = Except.error msg →
      PipelineEv.recorded false ∈ (evolve rules env).2) := by
  rcases evolve_shape rules env with ⟨msg, h⟩ | ⟨msg, h⟩ | ⟨msg, h⟩ | ⟨v, h⟩ <;>
    rw [h] <;> constructor <;> simp

/-- C1 amended witness: the plan-rejected run writes no quarantine
record and records a failed evolution. -/
theorem c1_witness :
    PipelineEv.quarantined ∉ (evolve defaultSafetyRules envPlanRejected).2 ∧
    PipelineEv.recorded false ∈ (evolve defaultSafetyRules envPlanRejected).2 :=
  ⟨(c1_amended_no_quarantine_failure_recorded defaultSafetyRules envPlanRejected).1,
   (c1_amended_no_quarantine_failure_recorded defaultSafetyRules envPlanRejected).2
     "Safety validation failed: Suspicious keyword detected: hack" (by rfl)⟩

/-- C8: every code string within the size limit that matches a banned
pattern is rejected by static analysis with a reason naming the matched
pattern text and a `pattern` field naming the pattern; in particular
`"while (true) \x7b\x7d"` is rejected citing the infinite-loop pattern. -/
theorem c8_banned_pattern_rejects (rules : SafetyRules) (code : String)
    (hsize : code.length ≤ rules.maxFileSize)
    (hmatch : ∃ p ∈ bannedPatterns, (firstMatchList p code.toList).isSome) :
    ((performStaticAnalysis rules code).safe = false ∧
      ∃ p ∈ bannedPatterns, ∃ m,
        firstMatchList p code.toList = some m ∧
        (performStaticAnalysis rules code).reason = "Banned pattern detected: " ++ String.mk m ∧
        (performStaticAnalysis rules code).patternName = some p.name) ∧
    performStaticAnalysis defaultSafetyRules "while (true) \x7b\x7d" =
      { safe := false, reason := "Banned pattern detected: while (true)",
        patternName := some "/while\\s*\\(\\s*true\\s*\\)/gi", metrics := none } := by
  constructor
  · obtain ⟨p, m, hfind, hmem, hm⟩ := findBanned_of_exists bannedPatterns code.toList hmatch
    have hns : ¬ (code.length > rules.maxFileSize) := not_lt.mpr hsize
    have hfind2 : findBanned bannedPatterns code.data = some (p, m) := hfind
    have hps : performStaticAnalysis rules code =
        { safe := false, reason := "Banned pattern detected: " ++ String.mk m,
          patternName := some p.name, metrics := none } := by
      simp [performStaticAnalysis, hns, hfind2]
    rw [hps]
    exact ⟨rfl, p, hmem, m, hm, rfl, rfl⟩
  · decide

/-- C8 witness: the general statement applied to `"while (true) \x7b\x7d"`. -/
theorem c8_witness :
    (performStaticAnalysis defaultSafetyRules "while (true) \x7b\x7d").safe = false ∧
    ∃ p ∈ bannedPatterns, ∃ m,
      firstMatchList p ("while (true) \x7b\x7d").toList = some m ∧
      (performStaticAnalysis defaultSafetyRules "while (true) \x7b\x7d").reason =
        "Banned pattern detected: " ++ String.mk m ∧
      (performStaticAnalysis defaultSafetyRules "while (true) \x7b\x7d").patternName =
        some p.name :=
  (c8_banned_pattern_rejects defaultSafetyRules "while (true) \x7b\x7d" (by decide)
    ⟨{ toks := [.lit "while", .wsStar, .lit "(", .wsStar, .lit "true", .wsStar, .lit ")"],
       neg := none, name := "/while\\s*\\(\\s*true\\s*\\)/gi" },
     by decide, by decide⟩).1

/-- C4 (Scenario C): registering the doubling artifact and invoking it
once with `{value: 5}` returns the callee's `{doubled: 10}` wrapped with
the feature's identity, with `usageCount = 1` and `lastUsed` set. -/
theorem c4_register_and_invoke_doubler :
    (∃ f, c4Setup.1 = Except.ok f ∧ f.id = "plan-doubler" ∧ f.name = "Value Doubler" ∧
      f.active = true) ∧
    (∃ r, c4Invoke.1 = Except.ok r ∧
      r.result = JVal.jobj [("doubled", JVal.jnum 10)] ∧
      r.featureId = "plan-doubler" ∧ r.featureName = "Value Doubler" ∧
      r.featureUsageCount = 1 ∧ r.timestamp = 999) ∧
    (∃ f', lookupF c4Invoke.2 "plan-doubler" = some f' ∧ f'.usageCount = 1 ∧
      f'.lastUsed = some 999) := by
  refine ⟨⟨_, rfl, rfl, rfl, rfl⟩, ⟨_, rfl, rfl, rfl, rfl, rfl, rfl⟩, ⟨_, rfl, rfl, rfl⟩⟩

/-- C5: a feature registered via `integrateFeature` (whose plan carries a
non-empty id, as every validated plan does) and reloaded via
`loadAllFeatures` against the same storage root after a restart is found
under the same id with identical `id`, `category`, `complexity` and
`capabilities` — the appended metadata block re-parses losslessly. -/
theorem c5_register_reload_round_trip (st : FeatureMap)
    (storage : List (String × StoredUnit)) (artifact : ArtifactExports) (plan : Plan)
    (ts : Nat) (genTime : String) (stats : FileStats) (freshId : String)
    (uuidSupply : Nat → String) (hid : plan.id ≠ some "") :
    ∀ feat,
      (integrateFeature st storage artifact plan ts genTime stats freshId).1 =
        Except.ok feat →
      ∃ f, lookupF
          (loadAllFeatures
            (integrateFeature st storage artifact plan ts genTime stats freshId).2.2
            uuidSupply)
          feat.id = some f ∧
        f.id = feat.id ∧ f.category = feat.category ∧ f.complexity = feat.complexity ∧
        f.capabilities = feat.capabilities := by
  intro feat hok
  have hI := integrateFeature_eq st storage artifact plan ts genTime stats freshId
  rw [hI] at hok
  have hfeat : feat =
      loadFeature (mkFilename plan ts) (mkUnit artifact plan genTime stats) freshId :=
    (Except.ok.inj hok).symm
  have hsto : (integrateFeature st storage artifact plan ts genTime stats freshId).2.2 =
      storage ++ [(mkFilename plan ts, mkUnit artifact plan genTime stats)] := by
    rw [hI]
  have hid' : jsTemplate plan.id ≠ "" := by
    cases hpi : plan.id with
    | none => simp [jsTemplate]
    | some s =>
      simp only [jsTemplate, Option.getD]
      intro hs
      exact hid (by rw [hpi, hs])
  have hmd : (mkUnit artifact plan genTime stats).module.metadata = some
      { id := jsTemplate plan.id, title := jsTemplate plan.title,
        description := jsTemplate plan.description, category := jsTemplate plan.category,
        complexity := jsTemplate plan.complexity, generated := genTime } := rfl
  have hirrel : ∀ u : String,
      loadFeature (mkFilename plan ts) (mkUnit artifact plan genTime stats) u =
        loadFeature (mkFilename plan ts) (mkUnit artifact plan genTime stats) freshId :=
    fun u => loadFeature_freshId_irrel _ _ _ _ _ hmd hid'
  have hmap : loadAllFeatures
      (storage ++ [(mkFilename plan ts, mkUnit artifact plan genTime stats)]) uuidSupply =
      setF (loadAllFeaturesAux uuidSupply storage).1 feat.id feat := by
    unfold loadAllFeatures
    rw [loadAllFeaturesAux_append]
    simp only [loadAllStep, mkFilename_endsWith, if_pos, loadFeatureInto]
    rw [hirrel, ← hfeat]
  rw [hsto, hmap]
  exact ⟨feat, lookupF_setF_self _ _ _, rfl, rfl, rfl, rfl⟩

/-- C5 witness: the round trip for the Scenario C registration. -/
theorem c5_witness :
    ∃ f, lookupF (loadAllFeatures c4Setup.2.2 c5Supply) c4Feature.id = some f ∧
      f.id = c4Feature.id ∧ f.category = c4Feature.category ∧
      f.complexity = c4Feature.complexity ∧ f.capabilities = c4Feature.capabilities :=
  c5_register_reload_round_trip [] [] doublerArtifact doublerPlan 1700 "2025-01-01" envStats
    "uuid-1" c5Supply (by decide) c4Feature (by rfl)

/-- C6 counterexample: an artifact whose `execute` entry point always
throws registers successfully — the self-test's timed `execute` probe
fails, yet the feature is returned with `active = true` and stays live in
the registry, refuting "every failure of this self-test immediately sets
the feature's active flag to false". -/
theorem c6_counterexample :
    ∃ f, c6Setup.1 = Except.ok f ∧ f.active = true ∧
      lookupF c6Setup.2.1 f.id = some f ∧
      ∃ ex, f.module.execute = some ex ∧
        ex (JVal.jobj [("test", JVal.jbool true)]) = Except.error "boom" := by
  refine ⟨_, rfl, rfl, rfl, _, rfl, rfl⟩

/-- C6 amended: the self-test runs once right after registration, but
only a failing health probe deactivates the feature (and fails the
registration); the timed `execute` probe's failure is only logged.  Since
the registration wrapper installs an always-healthy probe, registration
always succeeds with the feature left active. -/
theorem c6_amended_only_health_failure_deactivates (f : Feature) :
    (∀ s, f.module.health = some s → s ≠ "healthy" →
      testFeature f = (some ("Health check failed: " ++ s), { f with active := false })) ∧
    (f.module.health = some "healthy" → testFeature f = (none, f)) ∧
    (f.module.health = none → testFeature f = (none, f)) ∧
    (∀ st storage artifact plan ts genTime stats freshId,
      ∃ g, (integrateFeature st storage artifact plan ts genTime stats freshId).1 =
        Except.ok g ∧ g.active = true) := by
  refine ⟨?_, ?_, ?_, ?_⟩
  · intro s hs hne
    simp [testFeature, hs, hne]
  · intro hs
    exact testFeature_healthy f hs
  · intro hs
    simp [testFeature, hs]
  · intro st storage artifact plan ts genTime stats freshId
    rw [integrateFeature_eq]
    exact ⟨_, rfl, rfl⟩

/-- C6 amended witness: an unhealthy probe deactivates; registering the
always-throwing artifact leaves it active. -/
theorem c6_witness :
    testFeature unhealthyFeature =
      (some ("Health check failed: " ++ "sick"), { unhealthyFeature with active := false }) ∧
    (∃ g, (integrateFeature [] [] throwingArtifact c6Plan 3 "g" envStats "u6").1 =
      Except.ok g ∧ g.active = true) :=
  ⟨(c6_amended_only_health_failure_deactivates unhealthyFeature).1 "sick" rfl (by decide),
   (c6_amended_only_health_failure_deactivates unhealthyFeature).2.2.2 [] [] throwingArtifact
     c6Plan 3 "g" envStats "u6"⟩
